import Mathlib

/-!
Verification development for the seek-clarity orchestration core.

Shallow embedding of:
- the session supervisor (`LiveKitService` in
  `src/main/services/livekit.js` and the fuller variant with the Python
  agent in `src/reading_environmnet/IMPLEMENTATION_GUIDE.md`):
  `startSession`, `stopSession`, `startPythonAgent`, `stopPythonAgent`,
  `generateToken`, `getRoomInfo`;
- the AppleScript executor (`AppleScriptService.executeScript`);
- the automation WebSocket bridge (`ScreenshotWebSocketServer`):
  `handleMessage` with its action/type dispatch, the request handlers,
  and the heartbeat loop.

External effects (the uuid generator, JWT signing, process spawning,
`osascript` execution, screen capture, the OS clock) are passed in as
explicit outcome parameters; JavaScript truthiness on strings, the
`undefined`-dropping behaviour of `JSON.stringify`, and `||` defaulting
are modelled explicitly.
-/

namespace SeekClarity

/-- JavaScript truthiness of a possibly-absent string value:
`undefined`/`null` and the empty string are falsy. -/
def jsTruthy : Option String → Bool
  | none => false
  | some s => !(s == "")

/-- JavaScript `v || dft` for a possibly-absent string `v`:
the default is used when `v` is `undefined`, `null`, or `""`. -/
def jsOr (v : Option String) (dft : String) : String :=
  match v with
  | none => dft
  | some s => if s == "" then dft else s

/-- `String.trim` of JavaScript, computed on the character list
(the byte-position implementation in core does not reduce). -/
def jsTrim (s : String) : String :=
  String.mk (((s.data.dropWhile Char.isWhitespace).reverse.dropWhile Char.isWhitespace).reverse)

/-! ## uuid v4 (external `uuid` package, modelled byte-for-byte)

`uuidv4()` draws 16 random bytes, forces the version and variant
nibbles, and renders lowercase hex in the 8-4-4-4-12 layout. -/

/-- Lowercase hex digit of `n % 16` (codepoint 48 is the zero digit,
97 the letter a). -/
def hexChar (n : Nat) : Char :=
  if n % 16 < 10 then Char.ofNat (48 + n % 16) else Char.ofNat (87 + n % 16)

/-- Two lowercase hex digits of a byte. -/
def byteHex (b : Nat) : List Char := [hexChar (b / 16), hexChar b]

/-- The `i`-th random byte (missing entropy read as 0). -/
def nthByte (bs : List Nat) (i : Nat) : Nat := (bs.getD i 0) % 256

/-- Byte 6 with the v4 version nibble forced. -/
def versionByte (b : Nat) : Nat := b % 16 + 64

/-- Byte 8 with the RFC 4122 variant bits forced. -/
def variantByte (b : Nat) : Nat := b % 64 + 128

/-- Characters of the rendered uuid v4 string. -/
def uuidChars (bs : List Nat) : List Char :=
  byteHex (nthByte bs 0) ++ byteHex (nthByte bs 1) ++ byteHex (nthByte bs 2) ++
  byteHex (nthByte bs 3) ++ ['-'] ++ byteHex (nthByte bs 4) ++ byteHex (nthByte bs 5) ++
  ['-'] ++ byteHex (versionByte (nthByte bs 6)) ++ byteHex (nthByte bs 7) ++ ['-'] ++
  byteHex (variantByte (nthByte bs 8)) ++ byteHex (nthByte bs 9) ++ ['-'] ++
  byteHex (nthByte bs 10) ++ byteHex (nthByte bs 11) ++ byteHex (nthByte bs 12) ++
  byteHex (nthByte bs 13) ++ byteHex (nthByte bs 14) ++ byteHex (nthByte bs 15)

/-- `uuidv4()` applied to the 16 random bytes `bs`. -/
def uuidv4 (bs : List Nat) : String := String.mk (uuidChars bs)

/-! ## SessionSupervisor (`LiveKitService`) -/

/-- The static credential block read from the environment in the
constructor. -/
structure Config where
  url : Option String
  apiKey : Option String
  apiSecret : Option String
deriving DecidableEq

/-- Handle of the spawned Python agent process, with the slice of its
environment block the supervisor builds, and the Node `killed` flag
(set once a signal has been delivered to the child). -/
structure AgentHandle where
  pid : Nat
  roomEnv : String
  unbuffered : String
  killed : Bool
deriving DecidableEq

/-- Mutable fields of the `LiveKitService` singleton. -/
structure LKState where
  currentRoom : Option String
  isConnected : Bool
  agentProcess : Option AgentHandle
  config : Config
deriving DecidableEq

/-- Events the service emits. -/
inductive LKEvent
  | connected (room : String)
  | errored (msg : String)
  | disconnected
deriving DecidableEq

/-- The object returned by `startSession` (absent fields are `none`). -/
structure StartResult where
  success : Bool
  url : Option String := none
  token : Option String := none
  roomName : Option String := none
  error : Option String := none
deriving DecidableEq

/-- Result, post-state, and emitted events of one `startSession` call. -/
structure StartOutcome where
  result : StartResult
  state : LKState
  events : List LKEvent
deriving DecidableEq

deriving instance DecidableEq for Except

/-- Outcomes of the external effects `startSession` performs:
the uuid draw, the agent-file existence check, the `spawn` call
(pid or exception), and `AccessToken.toJwt` (jwt or exception). -/
structure StartOracles where
  uuid : String
  agentFileExists : Bool
  spawn : Except String Nat
  signJwt : Except String String
deriving DecidableEq

/-- The template literal `` clarity-${uuid.slice(0, 8)} ``. -/
def mkRoomName (u : String) : String :=
  String.mk ("clarity-".data ++ u.data.take 8)

/-- `generateToken`: throws when either API credential is falsy,
otherwise returns the outcome of `token.toJwt()` (its own `catch`
rethrows, so errors propagate unchanged). -/
def generateToken (cfg : Config) (sign : Except String String) : Except String String :=
  if !(jsTruthy cfg.apiKey) || !(jsTruthy cfg.apiSecret) then
    Except.error ("LiveKit API credentials not configured")
  else sign

/-- `startPythonAgent(roomName)`: reuses a live handle, returns `false`
when the agent file is missing or `spawn` throws (its `catch` swallows
the error), else stores the new handle built with the room environment
block. Never throws. -/
def startPythonAgent (s : LKState) (roomName : String) (o : StartOracles) : Bool × LKState :=
  if s.agentProcess.isSome then (true, s)
  else if o.agentFileExists = false then (false, s)
  else
    match o.spawn with
    | Except.ok pid =>
        let h : AgentHandle := { pid := pid, roomEnv := roomName, unbuffered := "1", killed := false }
        (true, { s with agentProcess := some h })
    | Except.error _ => (false, s)

/-- `startSession`: early-return when already connected; otherwise store
a fresh room name, throw when the URL is falsy, start the agent
(ignoring its boolean result), mint a token, mark connected and emit
`connected`. The enclosing `try/catch` converts any thrown error into
`{success:false, error}` and emits `error`. -/
def startSession (s : LKState) (o : StartOracles) : StartOutcome :=
  if s.isConnected then
    { result := { success := false, error := some ("Already connected to a session") },
      state := s, events := [] }
  else
    let room := mkRoomName o.uuid
    let s1 : LKState := { s with currentRoom := some room }
    if jsTruthy s1.config.url = false then
      { result := { success := false, error := some ("LiveKit URL not configured") },
        state := s1, events := [LKEvent.errored ("LiveKit URL not configured")] }
    else
      let s2 := (startPythonAgent s1 room o).2
      match generateToken s2.config o.signJwt with
      | Except.error e =>
          { result := { success := false, error := some e },
            state := s2, events := [LKEvent.errored e] }
      | Except.ok tok =>
          let s3 : LKState := { s2 with isConnected := true }
          { result := { success := true, url := s3.config.url, token := some tok,
                        roomName := some room },
            state := s3, events := [LKEvent.connected room] }

/-- Signals the supervisor can deliver to the agent process. -/
inductive AgentSignal
  | sigterm
  | sigkill
deriving DecidableEq

/-- `stopPythonAgent`: when a handle is live, send SIGTERM, schedule the
2000 ms grace timer, and null the handle immediately (synchronously,
before the timer can fire). Returns the new state, the signals sent
now, and whether the timer was scheduled. -/
def stopPythonAgent (s : LKState) : LKState × List AgentSignal × Bool :=
  match s.agentProcess with
  | some _ => ({ s with agentProcess := none }, [AgentSignal.sigterm], true)
  | none => (s, [], false)

/-- The grace-timer callback, run 2000 ms later against the then-current
state: when the stored handle exists and its killed flag is unset, SIGKILL is sent. -/
def graceTimerFire (s : LKState) : List AgentSignal :=
  match s.agentProcess with
  | some h => if h.killed = false then [AgentSignal.sigkill] else []
  | none => []

/-- Result of one `stopSession` call. -/
structure StopOutcome where
  state : LKState
  signals : List AgentSignal
  timerScheduled : Bool
  events : List LKEvent
deriving DecidableEq

/-- `stopSession`: warn-and-return when not connected; otherwise stop
the agent, clear the connected flag and room, and emit `disconnected`. -/
def stopSession (s : LKState) : StopOutcome :=
  if s.isConnected = false then
    { state := s, signals := [], timerScheduled := false, events := [] }
  else
    let r := stopPythonAgent s
    { state := { r.1 with isConnected := false, currentRoom := none },
      signals := r.2.1, timerScheduled := r.2.2, events := [LKEvent.disconnected] }

/-- A full quiescent stop: `stopSession` followed, 2000 ms later, by the
grace timer (when one was scheduled), with no interleaved calls. Yields
every signal delivered to the agent. -/
def stopSessionThenTimer (s : LKState) : List AgentSignal :=
  let o := stopSession s
  o.signals ++ (if o.timerScheduled then graceTimerFire o.state else [])

/-- The fixed grace period of `stopPythonAgent`, in milliseconds. -/
def gracePeriodMs : Nat := 2000

/-- The object returned by `getRoomInfo` (the `status()` surface). -/
structure RoomInfo where
  isConnected : Bool
  roomName : Option String
  url : Option String
deriving DecidableEq

/-- `getRoomInfo`. -/
def getRoomInfo (s : LKState) : RoomInfo :=
  { isConnected := s.isConnected, roomName := s.currentRoom, url := s.config.url }

/-! ## ScriptExecutor (`AppleScriptService.executeScript`) -/

/-- The `{success, output, error}` record `executeScript` returns. -/
structure ScriptResult where
  success : Bool
  output : Option String
  error : Option String
deriving DecidableEq

/-- Paths currently present on disk. -/
structure FsState where
  files : List String
deriving DecidableEq

/-- File-system operations `executeScript` performs, in order. -/
inductive FsOp
  | writeFile (path : String)
  | unlinkAttempt (path : String) (failed : Bool)
deriving DecidableEq

/-- Outcomes of the external effects of one `executeScript` call:
`Date.now()` (names the temp file), the `execAsync` run of `osascript`
(stdout, or the rejection message on non-zero exit), and whether the
`fs.unlink` of the temp file rejects. -/
structure ExecEnv where
  now : Nat
  exec : Except String String
  unlinkFails : Bool
deriving DecidableEq

/-- The template literal `` temp_script_${Date.now()}.applescript ``. -/
def tempFileName (now : Nat) : String :=
  "temp_script_" ++ toString now ++ ".applescript"

/-- Effect of one `fs.unlink(path).catch(log)`: the path is removed
when the unlink succeeds; a rejection is logged and leaves the file. -/
def unlinkStep (path : String) (fails : Bool) (fs : FsState) : FsState :=
  if fails then fs else { files := fs.files.erase path }

/-- Result, final disk state, and operation trace of `executeScript`
on an initialized service. -/
structure ScriptRun where
  result : ScriptResult
  fs : FsState
  ops : List FsOp
deriving DecidableEq

/-- Body of `executeScript` past the initialization guard: write the
temp file, run `osascript`; on resolution trim stdout and unlink, on
rejection unlink and rethrow into the outer catch, which returns
`{success:false, output:null, error}`. The unlink on both branches has
its own `.catch` so its failure is logged, never propagated. -/
def runScript (env : ExecEnv) (fs0 : FsState) : ScriptRun :=
  let tmp := tempFileName env.now
  let fs1 : FsState := { files := tmp :: fs0.files }
  match env.exec with
  | Except.ok stdout =>
      { result := { success := true, output := some (jsTrim stdout), error := none },
        fs := unlinkStep tmp env.unlinkFails fs1,
        ops := [FsOp.writeFile tmp, FsOp.unlinkAttempt tmp env.unlinkFails] }
  | Except.error msg =>
      { result := { success := false, output := none, error := some msg },
        fs := unlinkStep tmp env.unlinkFails fs1,
        ops := [FsOp.writeFile tmp, FsOp.unlinkAttempt tmp env.unlinkFails] }

/-- `executeScript(scriptCode)`: throws when the service is not
initialized, otherwise runs `runScript`. -/
def executeScript (isInit : Bool) (env : ExecEnv) (fs0 : FsState) :
    Except String ScriptRun :=
  if isInit = false then Except.error ("AppleScript service not initialized")
  else Except.ok (runScript env fs0)

/-! ## AutomationBridge (`ScreenshotWebSocketServer`) -/

/-- The object `captureScreen` resolves with (only the field the
bridge inspects). -/
structure Screenshot where
  dataUrl : Option String
deriving DecidableEq

/-- The `params` object of a command-form message (fields the handlers
read). -/
structure ScriptParams where
  code_snippet : Option String := none
  title : Option String := none
  description : Option String := none
  calendar : Option String := none
  start_time : Option String := none
  duration : Option Nat := none
  body : Option String := none
  content : Option String := none
deriving DecidableEq

/-- The `payload` object of a legacy-form message. -/
structure LegacyPayload where
  dataUrl : Option String := none
  prompt : Option String := none
  filename : Option String := none
deriving DecidableEq

/-- A parsed inbound socket message; either shape arrives on the one
channel. -/
structure WsMessage where
  action : Option String := none
  type : Option String := none
  payload : Option LegacyPayload := none
  params : Option ScriptParams := none
  requestId : Option String := none
deriving DecidableEq

/-- A serialized outbound message. A `none` field is absent from the
wire object (`JSON.stringify` drops `undefined`; `null`-valued fields
are conflated with absent ones here). -/
structure WsResponse where
  success : Option Bool := none
  base64 : Option String := none
  output : Option String := none
  message : Option String := none
  result : Option String := none
  prompt : Option String := none
  error : Option String := none
  requestId : Option String := none
  action : Option String := none
  type : Option String := none
  data : Option Screenshot := none
  path : Option String := none
  timestamp : Option String := none
  timestampMs : Option Nat := none
deriving DecidableEq

/-- Outcomes of the external work the handler of one message may await:
service availability, capture/analyze/save/script runs, and the two
clocks. -/
structure BridgeDeps where
  hasCapture : Bool := true
  hasAppleScript : Bool := true
  capture : Except String Screenshot := Except.error ("no capture")
  captureLegacy : Except String Screenshot := Except.error ("no capture")
  analyze : Except String String := Except.error ("no analyze")
  sources : Except String String := Except.error ("no sources")
  save : Except String String := Except.error ("no save")
  execScript : Except String ScriptResult := Except.error ("no script")
  calendar : Except String ScriptResult := Except.error ("no calendar")
  note : Except String ScriptResult := Except.error ("no note")
  nowIso : String := "t0"
  nowMs : Nat := 0
deriving DecidableEq

/-- Word characters of the `\w+` class in the data-URI header regex. -/
def isWordChar (c : Char) : Bool := c.isAlphanum || c == '_'

/-- The dataUrl replace against the data-URI header regex: strip one
leading `data:image/<word>;base64,` header when present. -/
def stripDataUriHeader (s : String) : String :=
  let l := s.data
  if ("data:image/".data).isPrefixOf l then
    let rest := l.drop 11
    let w := rest.takeWhile isWordChar
    let after := rest.drop w.length
    if w.length > 0 && ((";base64,".data).isPrefixOf after) then
      String.mk (after.drop 8)
    else s
  else s

/-- The error-shaped cassette response cases of `handleScreenshotRequest`
(success flag, message, echoed `requestId`). -/
def shotErr (req : Option String) (e : String) : WsResponse :=
  { success := some false, error := some e, requestId := req }

/-- `handleScreenshotRequest(ws, request)`: capture at the fixed low
quality, reject a falsy `dataUrl`, strip the data-URI header, and send
the cassette response; any thrown error is converted at this boundary,
echoing `request.requestId` either way. -/
def handleScreenshotRequest (d : BridgeDeps) (m : WsMessage) : WsResponse :=
  if d.hasCapture = false then shotErr m.requestId ("Capture service not available")
  else
    match d.capture with
    | Except.error e => shotErr m.requestId e
    | Except.ok shot =>
        if jsTruthy shot.dataUrl = false then
          shotErr m.requestId ("Screenshot capture returned invalid data")
        else
          { success := some true,
            base64 := some (stripDataUriHeader (shot.dataUrl.getD (""))),
            requestId := m.requestId,
            timestamp := some d.nowIso }

/-- `handleAppleScriptRequest(ws, params)`: require the service and a
truthy `code_snippet`, run the script, send
`{success, output: result.output || empty, error}`; thrown errors
become `{success:false, error}`. No branch includes a `requestId`. -/
def handleAppleScriptRequest (d : BridgeDeps) (p : ScriptParams) : WsResponse :=
  if d.hasAppleScript = false then
    { success := some false, error := some ("AppleScript service not available") }
  else if jsTruthy p.code_snippet = false then
    { success := some false, error := some ("No AppleScript code provided") }
  else
    match d.execScript with
    | Except.error e => { success := some false, error := some e }
    | Except.ok r =>
        { success := some r.success, output := some (jsOr r.output ("")), error := r.error }

/-- `handleCalendarRequest(ws, params)`: require the service, build the
event options, call `createCalendarEvent`, send
`{success, message: result.output || default, error}`. No `requestId`. -/
def handleCalendarRequest (d : BridgeDeps) (_p : ScriptParams) : WsResponse :=
  if d.hasAppleScript = false then
    { success := some false, error := some ("AppleScript service not available") }
  else
    match d.calendar with
    | Except.error e => { success := some false, error := some e }
    | Except.ok r =>
        { success := some r.success,
          message := some (jsOr r.output ("Calendar event created")), error := r.error }

/-- `handleNoteRequest(ws, params)`: require the service, call
`createNote`, send `{success, message: result.output || default,
error}`. No `requestId`. -/
def handleNoteRequest (d : BridgeDeps) (_p : ScriptParams) : WsResponse :=
  if d.hasAppleScript = false then
    { success := some false, error := some ("AppleScript service not available") }
  else
    match d.note with
    | Except.error e => { success := some false, error := some e }
    | Except.ok r =>
        { success := some r.success,
          message := some (jsOr r.output ("Note created")), error := r.error }

/-- `sendError(ws, error)`: the legacy structured error message. -/
def sendErrorResp (e : String) (now : String) : WsResponse :=
  { type := some ("error"), error := some e, timestamp := some now }

/-- `handleCaptureRequest(ws, payload)` (legacy `capture`). -/
def handleCaptureRequest (d : BridgeDeps) : List WsResponse :=
  match d.captureLegacy with
  | Except.ok shot =>
      [{ type := some ("screenshot"), data := some shot, timestamp := some d.nowIso }]
  | Except.error e => [sendErrorResp ("Capture failed: " ++ e) d.nowIso]

/-- `handleAnalyzeRequest(ws, payload)` (legacy `analyze`): rejects a
falsy `dataUrl`, else sends a status message followed by the analysis
or an error. -/
def handleAnalyzeRequest (d : BridgeDeps) (p : LegacyPayload) : List WsResponse :=
  if jsTruthy p.dataUrl = false then
    [sendErrorResp ("No image data provided for analysis") d.nowIso]
  else
    let statusMsg : WsResponse :=
      { type := some ("status"), message := some ("Analyzing image..."),
        timestamp := some d.nowIso }
    match d.analyze with
    | Except.ok a =>
        [statusMsg,
         { type := some ("analysis"), result := some a,
           prompt := some (p.prompt.getD ("What is in this image?")),
           timestamp := some d.nowIso }]
    | Except.error e => [statusMsg, sendErrorResp ("Analysis failed: " ++ e) d.nowIso]

/-- `handleSourcesRequest(ws)` (legacy `sources`; the inner promise may
in fact never settle — the outcome is taken as a parameter). -/
def handleSourcesRequest (d : BridgeDeps) : List WsResponse :=
  match d.sources with
  | Except.ok srcs =>
      [{ type := some ("sources"), message := some srcs, timestamp := some d.nowIso }]
  | Except.error e => [sendErrorResp ("Failed to get sources: " ++ e) d.nowIso]

/-- `handleSaveRequest(ws, payload)` (legacy `save`). -/
def handleSaveRequest (d : BridgeDeps) (p : LegacyPayload) : List WsResponse :=
  if jsTruthy p.dataUrl = false then
    [sendErrorResp ("No image data provided to save") d.nowIso]
  else
    match d.save with
    | Except.ok savedPath =>
        [{ type := some ("saved"), path := some savedPath, timestamp := some d.nowIso }]
    | Except.error e => [sendErrorResp ("Save failed: " ++ e) d.nowIso]

/-- The cassette-style `switch (action)` arm of `handleMessage`. -/
def actionSwitch (d : BridgeDeps) (a : String) (m : WsMessage) : List WsResponse :=
  if a = "capture_screenshot" then [handleScreenshotRequest d m]
  else if a = "applescript_execute" then
    [handleAppleScriptRequest d (m.params.getD { })]
  else if a = "create_calendar_event" then
    [handleCalendarRequest d (m.params.getD { })]
  else if a = "create_note" then
    [handleNoteRequest d (m.params.getD { })]
  else if a = "ping" then [{ success := some true, action := some ("pong") }]
  else [{ success := some false, error := some ("Unknown action: " ++ a) }]

/-- The legacy `switch (type)` arm of `handleMessage`. An unrecognized
or absent type is interpolated into the error text the way a template
literal renders it. -/
def typeSwitch (d : BridgeDeps) (t : Option String) (p : LegacyPayload) : List WsResponse :=
  if t = some ("capture") then handleCaptureRequest d
  else if t = some ("analyze") then handleAnalyzeRequest d p
  else if t = some ("sources") then handleSourcesRequest d
  else if t = some ("save") then handleSaveRequest d p
  else if t = some ("ping") then
    [{ type := some ("pong"), timestampMs := some d.nowMs }]
  else [sendErrorResp ("Unknown message type: " ++ t.getD ("undefined")) d.nowIso]

/-- `handleMessage(ws, message)`: a truthy `action` field selects the
cassette switch and returns; otherwise the legacy type switch runs.
Handlers only ever send on the connection — none closes it. -/
def handleMessage (d : BridgeDeps) (m : WsMessage) : List WsResponse :=
  if jsTruthy m.action then actionSwitch d (m.action.getD ("")) m
  else typeSwitch d m.type (m.payload.getD { })

/-- Responses produced by one connection handling a sequence of
messages in arrival order (the registry is untouched by message
handling, so the connection serves every later message). -/
def serveMessages (steps : List (BridgeDeps × WsMessage)) : List WsResponse :=
  (steps.map (fun s => handleMessage s.1 s.2)).flatten

/-! ### Heartbeat -/

/-- Per-connection liveness state in the client registry. -/
structure WsClient where
  id : String
  isAlive : Bool
deriving DecidableEq

/-- The heartbeat interval of `startHeartbeat`, in milliseconds. -/
def heartbeatIntervalMs : Nat := 30000

/-- The fate of one client at a heartbeat tick: a client whose previous ping
went unanswered is dropped; otherwise it is marked dead and pinged, and
`pongs` tells whether its pong arrives before the next tick. -/
def tickClient (pongs : String → Bool) (c : WsClient) : Option WsClient :=
  if c.isAlive then some { c with isAlive := pongs c.id } else none

/-- One run of the `startHeartbeat` interval callback over the
registry: the surviving registry, and the ids terminated this tick. -/
def heartbeatTick (pongs : String → Bool) (reg : List WsClient) :
    List WsClient × List String :=
  (reg.filterMap (tickClient pongs), (reg.filter (fun c => !c.isAlive)).map WsClient.id)

/-! ## Specification-side predicates -/

/-- A lowercase hexadecimal digit (the `[0-9a-f]` character class). -/
def isHexLower (c : Char) : Bool :=
  (48 ≤ c.toNat && c.toNat ≤ 57) || (97 ≤ c.toNat && c.toNat ≤ 102)

/-- The room-name pattern of the spec: the anchored regex
`clarity-[0-9a-f]` with quantifier 8, as a decidable match on the
character list. -/
def matchesRoomPattern (s : String) : Bool :=
  match s.data with
  | 'c' :: 'l' :: 'a' :: 'r' :: 'i' :: 't' :: 'y' :: '-' :: rest =>
      rest.length == 8 && rest.all isHexLower
  | _ => false

/-! ## Helper lemmas -/

/-- Every character the hex renderer produces is a lowercase hex digit. -/
theorem isHexLower_hexChar (n : Nat) : isHexLower (hexChar n) = true := by
  have h16 : n % 16 < 16 := Nat.mod_lt _ (by norm_num)
  have hall : ∀ m, m < 16 →
      isHexLower (if m < 10 then Char.ofNat (48 + m) else Char.ofNat (87 + m)) = true := by
    decide
  exact hall (n % 16) h16

/-- The first eight rendered uuid characters are the hex digits of the
first four bytes. -/
theorem take8_uuidChars (bs : List Nat) :
    (uuidChars bs).take 8 =
      [hexChar (nthByte bs 0 / 16), hexChar (nthByte bs 0),
       hexChar (nthByte bs 1 / 16), hexChar (nthByte bs 1),
       hexChar (nthByte bs 2 / 16), hexChar (nthByte bs 2),
       hexChar (nthByte bs 3 / 16), hexChar (nthByte bs 3)] := by
  simp [uuidChars, byteHex]

/-- Room names built from any uuid byte draw match the spec pattern. -/
theorem mkRoomName_uuid_matches (bs : List Nat) :
    matchesRoomPattern (mkRoomName (uuidv4 bs)) = true := by
  have hcl : "clarity-".data = ['c', 'l', 'a', 'r', 'i', 't', 'y', '-'] := rfl
  show matchesRoomPattern (String.mk ("clarity-".data ++ (uuidChars bs).take 8)) = true
  rw [take8_uuidChars, hcl]
  simp [matchesRoomPattern, isHexLower_hexChar]

/-- `startPythonAgent` never touches the credential block. -/
theorem startPythonAgent_config (s : LKState) (room : String) (o : StartOracles) :
    (startPythonAgent s room o).2.config = s.config := by
  unfold startPythonAgent
  split
  · rfl
  · split
    · rfl
    · split <;> rfl

/-- `startPythonAgent` never touches the connected flag. -/
theorem startPythonAgent_isConnected (s : LKState) (room : String) (o : StartOracles) :
    (startPythonAgent s room o).2.isConnected = s.isConnected := by
  unfold startPythonAgent
  split
  · rfl
  · split
    · rfl
    · split <;> rfl

/-- `startPythonAgent` never touches the stored room id. -/
theorem startPythonAgent_currentRoom (s : LKState) (room : String) (o : StartOracles) :
    (startPythonAgent s room o).2.currentRoom = s.currentRoom := by
  unfold startPythonAgent
  split
  · rfl
  · split
    · rfl
    · split <;> rfl

/-! ## Claims -/

/-- Claim C1: for every `start()` invoked in state Idle in which a step
after the state check throws (missing configuration, token-signing
failure — spawn failures are swallowed inside `startPythonAgent` and
cannot throw), the exception is caught inside `start()`: the call
returns `{success:false, error}`, the state is Idle afterwards, and no
exception escapes (the embedded function is total, mirroring the
enclosing catch-all). -/
theorem start_failure_caught (s : LKState) (o : StartOracles)
    (hidle : s.isConnected = false)
    (hthrow : jsTruthy s.config.url = false ∨ jsTruthy s.config.apiKey = false ∨
      jsTruthy s.config.apiSecret = false ∨ (∃ e, o.signJwt = Except.error e)) :
    (startSession s o).result.success = false ∧
    (startSession s o).result.error.isSome = true ∧
    (startSession s o).state.isConnected = false := by
  by_cases hu : jsTruthy s.config.url = false
  · refine ⟨?_, ?_, ?_⟩ <;> simp [startSession, hidle, hu]
  · have hu2 : jsTruthy s.config.url = true := by
      cases h2 : jsTruthy s.config.url
      · exact absurd h2 hu
      · rfl
    obtain ⟨e2, hgen⟩ : ∃ e2,
        generateToken s.config o.signJwt = Except.error e2 := by
      by_cases hk2 : jsTruthy s.config.apiKey = false
      · exact ⟨("LiveKit API credentials not configured"), by simp [generateToken, hk2]⟩
      by_cases hs3 : jsTruthy s.config.apiSecret = false
      · exact ⟨("LiveKit API credentials not configured"), by simp [generateToken, hs3]⟩
      rcases hthrow with h | h | h | ⟨e, h⟩
      · exact absurd h hu
      · exact absurd h hk2
      · exact absurd h hs3
      · refine ⟨e, ?_⟩
        simp only [Bool.not_eq_false] at hk2 hs3
        simp [generateToken, hk2, hs3, h]
    refine ⟨?_, ?_, ?_⟩ <;>
      simp [startSession, hidle, hu2, startPythonAgent_config,
        startPythonAgent_isConnected, hgen]

def c1State : LKState :=
  { currentRoom := none, isConnected := false, agentProcess := none,
    config := { url := some ("wss://lk.example"), apiKey := some ("key"),
                apiSecret := some ("secret") } }

def c1Oracles : StartOracles :=
  { uuid := uuidv4 [1, 2, 3, 4, 5, 6, 7, 8, 9, 10, 11, 12, 13, 14, 15, 16],
    agentFileExists := true, spawn := Except.ok 4242,
    signJwt := Except.error ("jwt signing failed") }

/-- Witness for C1 at a concrete Idle state whose token signing throws. -/
theorem start_failure_caught_witness :
    (startSession c1State c1Oracles).result.success = false ∧
    (startSession c1State c1Oracles).result.error.isSome = true ∧
    (startSession c1State c1Oracles).state.isConnected = false :=
  start_failure_caught c1State c1Oracles rfl
    (Or.inr (Or.inr (Or.inr ⟨("jwt signing failed"), rfl⟩)))

def c2State : LKState :=
  { currentRoom := some ("clarity-cafe0123"), isConnected := true,
    agentProcess := some { pid := 4242, roomEnv := "clarity-cafe0123",
                           unbuffered := "1", killed := false },
    config := { url := some ("wss://lk.example"), apiKey := some ("key"),
                apiSecret := some ("secret") } }

/-- Claim C2 (code evaluation): a `stop()` in Connected state with a
live agent sends only SIGTERM — the handle is nulled synchronously, so
the scheduled grace timer finds `agentProcess` null and the SIGKILL
escalation can never fire, no matter how the agent behaves. The rest of
the claimed behaviour (handle and room cleared, Idle, `disconnected`
emitted) does hold, as evaluated at the concrete Connected state. -/
theorem stop_never_sends_sigkill :
    (∀ s : LKState,
      (stopSessionThenTimer s).contains AgentSignal.sigkill = false) ∧
    (stopSession c2State).signals = [AgentSignal.sigterm] ∧
    (stopSession c2State).timerScheduled = true ∧
    graceTimerFire (stopSession c2State).state = [] ∧
    (stopSession c2State).state.agentProcess = none ∧
    (stopSession c2State).state.currentRoom = none ∧
    (stopSession c2State).state.isConnected = false ∧
    (stopSession c2State).events = [LKEvent.disconnected] := by
  refine ⟨?_, rfl, rfl, rfl, rfl, rfl, rfl, rfl⟩
  intro s
  unfold stopSessionThenTimer stopSession stopPythonAgent graceTimerFire
  cases hc : s.isConnected <;> cases hp : s.agentProcess <;> simp

def c5Oracles : StartOracles :=
  { uuid := "11112222-3333-4444-5555-666677778888", agentFileExists := true,
    spawn := Except.ok 9, signJwt := Except.ok ("jwt") }

/-- Claim C5 counterexample: at a Connected state the error string the
code returns is `Already connected to a session`, not the claimed
`already connected`. -/
theorem start_connected_error_string_cx :
    (startSession c2State c5Oracles).result.error ≠ some ("already connected") ∧
    (startSession c2State c5Oracles).result.error =
      some ("Already connected to a session") := by
  constructor <;> decide

/-- Claim C5 (amended): `start()` while Connected returns
`{success:false, error:"Already connected to a session"}` with no side
effects — the state (room id, process handle, connected flag, and hence
the live process count) is exactly the pre-state and no event is
emitted. -/
theorem start_while_connected_no_side_effects (s : LKState) (o : StartOracles)
    (h : s.isConnected = true) :
    (startSession s o).result =
      { success := false, error := some ("Already connected to a session") } ∧
    (startSession s o).state = s ∧ (startSession s o).events = [] := by
  refine ⟨?_, ?_, ?_⟩ <;> simp [startSession, h]

/-- Witness for the amended C5 at a concrete Connected state. -/
theorem start_while_connected_no_side_effects_witness :
    (startSession c2State c5Oracles).result =
      { success := false, error := some ("Already connected to a session") } ∧
    (startSession c2State c5Oracles).state = c2State ∧
    (startSession c2State c5Oracles).events = [] :=
  start_while_connected_no_side_effects c2State c5Oracles rfl

/-- Claim C8: `start()` with valid configuration in state Idle succeeds
with a room name matching `clarity-` plus eight lowercase hex
characters, the (non-empty) signed token, and the configured URL. -/
theorem start_success_shape (s : LKState) (o : StartOracles) (u k sec jwt : String)
    (bs : List Nat)
    (hidle : s.isConnected = false)
    (hurl : s.config.url = some u) (hune : u ≠ "")
    (hkey : s.config.apiKey = some k) (hkne : k ≠ "")
    (hsec : s.config.apiSecret = some sec) (hsne : sec ≠ "")
    (hsign : o.signJwt = Except.ok jwt) (hjwt : jwt ≠ "")
    (huuid : o.uuid = uuidv4 bs) :
    (startSession s o).result.success = true ∧
    matchesRoomPattern ((startSession s o).result.roomName.getD ("")) = true ∧
    (startSession s o).result.token = some jwt ∧ jwt ≠ "" ∧
    (startSession s o).result.url = some u := by
  have hu2 : jsTruthy s.config.url = true := by simp [jsTruthy, hurl, hune]
  have hgen : generateToken s.config o.signJwt = Except.ok jwt := by
    simp [generateToken, jsTruthy, hkey, hkne, hsec, hsne, hsign]
  refine ⟨?_, ?_, ?_, hjwt, ?_⟩ <;>
    simp [startSession, hidle, hu2, jsTruthy, hune, startPythonAgent_config,
      hgen, hurl, huuid, mkRoomName_uuid_matches]

def c8State : LKState :=
  { currentRoom := none, isConnected := false, agentProcess := none,
    config := { url := some ("wss://lk.example"), apiKey := some ("key"),
                apiSecret := some ("secret") } }

def c8Oracles : StartOracles :=
  { uuid := uuidv4 [222, 173, 190, 239, 1, 2, 3, 4, 5, 6, 7, 8, 9, 10, 11, 12],
    agentFileExists := true, spawn := Except.ok 4242,
    signJwt := Except.ok ("hh.pp.sig") }

/-- Witness for C8 at a concrete valid configuration. -/
theorem start_success_shape_witness :
    (startSession c8State c8Oracles).result.success = true ∧
    matchesRoomPattern ((startSession c8State c8Oracles).result.roomName.getD ("")) = true ∧
    (startSession c8State c8Oracles).result.token = some ("hh.pp.sig") ∧
    ("hh.pp.sig" : String) ≠ "" ∧
    (startSession c8State c8Oracles).result.url = some ("wss://lk.example") :=
  start_success_shape c8State c8Oracles ("wss://lk.example") ("key") ("secret")
    ("hh.pp.sig") [222, 173, 190, 239, 1, 2, 3, 4, 5, 6, 7, 8, 9, 10, 11, 12]
    rfl rfl (by decide) rfl (by decide) rfl (by decide) rfl (by decide) rfl

/-- Claim C9: a `start()` that fails after room-id generation (token
signing throws) leaves the freshly generated room id stored: a
subsequent `status()` reports not-connected together with a non-null
room name. -/
theorem failed_start_keeps_room (s : LKState) (o : StartOracles) (u k sec e : String)
    (hidle : s.isConnected = false)
    (hurl : s.config.url = some u) (hune : u ≠ "")
    (hkey : s.config.apiKey = some k) (hkne : k ≠ "")
    (hsec : s.config.apiSecret = some sec) (hsne : sec ≠ "")
    (hsign : o.signJwt = Except.error e) :
    (startSession s o).result.success = false ∧
    (getRoomInfo (startSession s o).state).isConnected = false ∧
    (getRoomInfo (startSession s o).state).roomName = some (mkRoomName o.uuid) := by
  have hu2 : jsTruthy s.config.url = true := by simp [jsTruthy, hurl, hune]
  have hgen : generateToken s.config o.signJwt = Except.error e := by
    simp [generateToken, jsTruthy, hkey, hkne, hsec, hsne, hsign]
  refine ⟨?_, ?_, ?_⟩ <;>
    simp [startSession, getRoomInfo, hidle, hu2, jsTruthy, hune, hurl,
      startPythonAgent_config, startPythonAgent_isConnected,
      startPythonAgent_currentRoom, hgen]

def c9Oracles : StartOracles :=
  { uuid := uuidv4 [190, 239, 0, 17, 1, 2, 3, 4, 5, 6, 7, 8, 9, 10, 11, 12],
    agentFileExists := true, spawn := Except.ok 4242,
    signJwt := Except.error ("jwt signing failed") }

/-- Witness for C9 at a concrete Idle state whose token signing throws. -/
theorem failed_start_keeps_room_witness :
    (startSession c8State c9Oracles).result.success = false ∧
    (getRoomInfo (startSession c8State c9Oracles).state).isConnected = false ∧
    (getRoomInfo (startSession c8State c9Oracles).state).roomName =
      some (mkRoomName c9Oracles.uuid) :=
  failed_start_keeps_room c8State c9Oracles ("wss://lk.example") ("key") ("secret")
    ("jwt signing failed") rfl rfl (by decide) rfl (by decide) rfl (by decide) rfl

/-- Claim C7: `executeScript` on an initialized service always attempts
the deletion of its timestamp-named temp file before returning, on the
resolved path and the non-zero-exit path alike; when the deletion
succeeds the file is absent from disk afterwards, and a deletion
failure never changes the returned result. -/
theorem runScript_deletes_temp (env : ExecEnv) (fs0 : FsState)
    (hfresh : fs0.files.contains (tempFileName env.now) = false) :
    FsOp.unlinkAttempt (tempFileName env.now) env.unlinkFails ∈ (runScript env fs0).ops ∧
    (env.unlinkFails = false →
      (runScript env fs0).fs.files.contains (tempFileName env.now) = false) ∧
    (runScript { env with unlinkFails := true } fs0).result = (runScript env fs0).result := by
  have hfresh2 : tempFileName env.now ∉ fs0.files := by simpa using hfresh
  unfold runScript
  cases hx : env.exec <;>
    refine ⟨by simp, ?_, by simp [hx]⟩ <;>
    · intro hdel
      simp [hx, hdel, unlinkStep, hfresh2]

def c7Env : ExecEnv :=
  { now := 1234, exec := Except.error ("osascript exited with code 1"),
    unlinkFails := false }

/-- Witness for C7 at a concrete failing script run on an empty disk. -/
theorem runScript_deletes_temp_witness :
    FsOp.unlinkAttempt (tempFileName c7Env.now) c7Env.unlinkFails ∈
      (runScript c7Env { files := [] }).ops ∧
    (c7Env.unlinkFails = false →
      (runScript c7Env { files := [] }).fs.files.contains (tempFileName c7Env.now) = false) ∧
    (runScript { c7Env with unlinkFails := true } { files := [] }).result =
      (runScript c7Env { files := [] }).result :=
  runScript_deletes_temp c7Env { files := [] } rfl

/-! ### Bridge claims -/

/-- The screenshot handler echoes the `requestId` of the request on every
branch, success and error alike. -/
theorem handleScreenshotRequest_requestId (d : BridgeDeps) (m : WsMessage) :
    (handleScreenshotRequest d m).requestId = m.requestId := by
  unfold handleScreenshotRequest shotErr
  split
  · rfl
  · split
    · rfl
    · split <;> rfl

/-- The script-execution handler never includes a `requestId`. -/
theorem handleAppleScriptRequest_requestId (d : BridgeDeps) (p : ScriptParams) :
    (handleAppleScriptRequest d p).requestId = none := by
  unfold handleAppleScriptRequest
  split
  · rfl
  · split
    · rfl
    · split <;> rfl

/-- The calendar handler never includes a `requestId`. -/
theorem handleCalendarRequest_requestId (d : BridgeDeps) (p : ScriptParams) :
    (handleCalendarRequest d p).requestId = none := by
  unfold handleCalendarRequest
  split
  · rfl
  · split <;> rfl

/-- The note handler never includes a `requestId`. -/
theorem handleNoteRequest_requestId (d : BridgeDeps) (p : ScriptParams) :
    (handleNoteRequest d p).requestId = none := by
  unfold handleNoteRequest
  split
  · rfl
  · split <;> rfl

def c3Deps : BridgeDeps := { }

def c3PingMsg : WsMessage := { action := some ("ping"), requestId := some ("req-1") }

/-- Claim C3 counterexample: a command-form ping carrying
`requestId:"req-1"` is answered by a pong that carries no `requestId`
at all. -/
theorem ping_response_drops_requestId_cx :
    handleMessage c3Deps c3PingMsg =
      [{ success := some true, action := some ("pong") }] ∧
    ({ success := some true, action := some ("pong") } : WsResponse).requestId = none := by
  constructor <;> decide

/-- Claim C3 (amended): only the screenshot handler echoes the
`requestId` of the request (omitting the field exactly when the request
omitted it); the script-execution, calendar, note, and ping responses
never carry a `requestId`, whether or not one was supplied. -/
theorem requestId_echo_policy (d : BridgeDeps) (m : WsMessage) :
    (m.action = some ("capture_screenshot") →
      ∀ r ∈ handleMessage d m, r.requestId = m.requestId) ∧
    (∀ a, m.action = some a →
      (a = "applescript_execute" ∨ a = "create_calendar_event" ∨
        a = "create_note" ∨ a = "ping") →
      ∀ r ∈ handleMessage d m, r.requestId = none) := by
  constructor
  · intro ha r hr
    simp [handleMessage, ha, jsTruthy, actionSwitch] at hr
    rw [hr]
    exact handleScreenshotRequest_requestId d m
  · intro a ha hcase r hr
    rcases hcase with h | h | h | h
    · subst h
      simp [handleMessage, ha, jsTruthy, actionSwitch] at hr
      rw [hr]
      exact handleAppleScriptRequest_requestId d _
    · subst h
      simp [handleMessage, ha, jsTruthy, actionSwitch] at hr
      rw [hr]
      exact handleCalendarRequest_requestId d _
    · subst h
      simp [handleMessage, ha, jsTruthy, actionSwitch] at hr
      rw [hr]
      exact handleNoteRequest_requestId d _
    · subst h
      simp [handleMessage, ha, jsTruthy, actionSwitch] at hr
      rw [hr]

def c3ShotDeps : BridgeDeps := { capture := Except.ok { dataUrl := some ("imgdata") } }

def c3ShotMsg : WsMessage :=
  { action := some ("capture_screenshot"), requestId := some ("req-9") }

def c3ShotResp : WsResponse :=
  { success := some true, base64 := some (stripDataUriHeader ("imgdata")),
    requestId := some ("req-9"), timestamp := some ("t0") }

/-- Witness for the amended C3: the concrete screenshot response echoes
the id of the concrete request. -/
theorem requestId_echo_policy_witness : c3ShotResp.requestId = some ("req-9") :=
  (requestId_echo_policy c3ShotDeps c3ShotMsg).1 rfl c3ShotResp (by decide)

def c6Deps : BridgeDeps := { }

def c6Msg : WsMessage := { action := some ("foo_bar") }

/-- Claim C6 counterexample: the unknown-verb reply interpolates the
word `action`, not `verb` — `foo_bar` yields
`Unknown action: foo_bar`. -/
theorem unknown_action_error_string_cx :
    handleMessage c6Deps c6Msg ≠
      [{ success := some false, error := some ("Unknown verb: foo_bar") }] ∧
    handleMessage c6Deps c6Msg =
      [{ success := some false, error := some ("Unknown action: foo_bar") }] := by
  constructor <;> decide

/-- Claim C6 (amended): an unrecognized non-empty action yields the
structured reply `{success:false, error:"Unknown action: <a>"}` on the
same connection, which handler code never closes; a subsequent valid
request (a ping, under any dependency outcomes) is still served. -/
theorem unknown_action_structured_reply (d d2 : BridgeDeps) (m : WsMessage) (a : String)
    (ha : m.action = some a) (hne : a ≠ "")
    (h1 : a ≠ "capture_screenshot") (h2 : a ≠ "applescript_execute")
    (h3 : a ≠ "create_calendar_event") (h4 : a ≠ "create_note") (h5 : a ≠ "ping") :
    handleMessage d m =
      [{ success := some false, error := some ("Unknown action: " ++ a) }] ∧
    serveMessages [(d, m), (d2, { action := some ("ping") })] =
      [{ success := some false, error := some ("Unknown action: " ++ a) },
       { success := some true, action := some ("pong") }] := by
  have hmain : handleMessage d m =
      [{ success := some false, error := some ("Unknown action: " ++ a) }] := by
    simp [handleMessage, ha, jsTruthy, hne, actionSwitch, h1, h2, h3, h4, h5]
  have hping : handleMessage d2 ({ action := some ("ping") } : WsMessage) =
      [{ success := some true, action := some ("pong") }] := by
    simp [handleMessage, jsTruthy, actionSwitch]
  refine ⟨hmain, ?_⟩
  simp [serveMessages, hmain, hping]

def c6PongDeps : BridgeDeps := { nowMs := 7 }

/-- Witness for the amended C6 at the concrete verb `foo_bar`. -/
theorem unknown_action_structured_reply_witness :
    handleMessage c6Deps c6Msg =
      [{ success := some false, error := some ("Unknown action: " ++ "foo_bar") }] ∧
    serveMessages [(c6Deps, c6Msg), (c6PongDeps, { action := some ("ping") })] =
      [{ success := some false, error := some ("Unknown action: " ++ "foo_bar") },
       { success := some true, action := some ("pong") }] :=
  unknown_action_structured_reply c6Deps c6PongDeps c6Msg ("foo_bar") rfl
    (by decide) (by decide) (by decide) (by decide) (by decide) (by decide)

/-- Inversion of the heartbeat step of one client: a survivor was alive and
is the same client re-marked by its pong behaviour. -/
theorem tickClient_some (pongs : String → Bool) (x y : WsClient)
    (h : tickClient pongs x = some y) :
    x.isAlive = true ∧ y = { id := x.id, isAlive := pongs x.id } := by
  unfold tickClient at h
  cases hx : x.isAlive
  · rw [hx] at h
    simp at h
  · rw [hx] at h
    simp at h
    exact ⟨rfl, h.symm⟩

/-- Claim C4: a registered, currently-alive client that never answers a
ping is terminated at the second heartbeat tick and is absent from the
registry afterwards — a deterministic bound of two heartbeat intervals
(2 × 30000 ms). -/
theorem silent_client_evicted_in_two_ticks (reg : List WsClient) (c : WsClient)
    (pongs : String → Bool) (hmem : c ∈ reg) (halive : c.isAlive = true)
    (hnd : (reg.map WsClient.id).Nodup) (hsilent : pongs c.id = false) :
    c.id ∈ (heartbeatTick pongs (heartbeatTick pongs reg).1).2 ∧
    (∀ c2 ∈ (heartbeatTick pongs (heartbeatTick pongs reg).1).1, c2.id ≠ c.id) ∧
    2 * heartbeatIntervalMs = 60000 := by
  have hc1 : ({ id := c.id, isAlive := false } : WsClient) ∈ (heartbeatTick pongs reg).1 := by
    unfold heartbeatTick
    refine List.mem_filterMap.mpr ⟨c, hmem, ?_⟩
    simp [tickClient, halive, hsilent]
  refine ⟨?_, ?_, rfl⟩
  · show c.id ∈ ((heartbeatTick pongs reg).1.filter (fun x => !x.isAlive)).map WsClient.id
    refine List.mem_map.mpr ⟨{ id := c.id, isAlive := false }, ?_, rfl⟩
    exact List.mem_filter.mpr ⟨hc1, rfl⟩
  · intro c2 h2 hid
    obtain ⟨b, hb, htb⟩ :=
      List.mem_filterMap.mp (h2 : c2 ∈ (heartbeatTick pongs reg).1.filterMap (tickClient pongs))
    obtain ⟨a, ha2, hta⟩ :=
      List.mem_filterMap.mp (hb : b ∈ reg.filterMap (tickClient pongs))
    obtain ⟨hbAlive, hc2eq⟩ := tickClient_some pongs b c2 htb
    obtain ⟨haAlive, hbeq⟩ := tickClient_some pongs a b hta
    have hba : b.id = a.id := by rw [hbeq]
    have hca : a.id = c.id := by
      have : c2.id = b.id := by rw [hc2eq]
      rw [← hba, ← this, hid]
    have hac : a = c := List.inj_on_of_nodup_map hnd ha2 hmem hca
    rw [hac, hsilent] at hbeq
    rw [hbeq] at hbAlive
    exact Bool.false_ne_true hbAlive

def c4Reg : List WsClient :=
  [{ id := "client_a", isAlive := true }, { id := "client_b", isAlive := true }]

def c4Pongs : String → Bool := fun s => s == "client_b"

/-- Witness for C4: the concrete silent client `client_a` is in the
terminated set of the second tick. -/
theorem silent_client_evicted_in_two_ticks_witness :
    ("client_a" : String) ∈ (heartbeatTick c4Pongs (heartbeatTick c4Pongs c4Reg).1).2 ∧
    2 * heartbeatIntervalMs = 60000 :=
  ⟨(silent_client_evicted_in_two_ticks c4Reg { id := "client_a", isAlive := true }
      c4Pongs (by decide) rfl (by decide) (by decide)).1,
   (silent_client_evicted_in_two_ticks c4Reg { id := "client_a", isAlive := true }
      c4Pongs (by decide) rfl (by decide) (by decide)).2.2⟩

def c10Deps : BridgeDeps := { nowMs := 111 }

def c10Msg : WsMessage := { action := some (""), type := some ("ping") }

/-- Claim C10 counterexample: a message carrying both an action field
(the empty string, falsy in JavaScript) and a legacy type field is
dispatched by the legacy type switch — the legacy ping handler runs and
its type-tagged pong is sent, not a command-form response. -/
theorem empty_action_falls_to_legacy_cx :
    handleMessage c10Deps c10Msg = typeSwitch c10Deps (some ("ping")) { } ∧
    handleMessage c10Deps c10Msg =
      [{ type := some ("pong"), timestampMs := some 111 }] ∧
    handleMessage c10Deps c10Msg ≠ actionSwitch c10Deps ("") c10Msg := by
  refine ⟨?_, ?_, ?_⟩ <;> decide

/-- Claim C10 (amended): whenever the action field is a non-empty
string, dispatch is decided by it alone — the command switch runs and
the legacy type field is ignored entirely (the outcome is invariant
under replacing it). An empty-string action is falsy and falls through
to the legacy type dispatch. -/
theorem action_dispatch_decides (d : BridgeDeps) (m : WsMessage) (a : String)
    (t : Option String) (ha : m.action = some a) (hne : a ≠ "") :
    handleMessage d m = actionSwitch d a m ∧
    handleMessage d { m with type := t } = actionSwitch d a m := by
  have hirrel : actionSwitch d a { m with type := t } = actionSwitch d a m := rfl
  constructor
  · simp [handleMessage, ha, jsTruthy, hne]
  · rw [← hirrel]
    simp [handleMessage, ha, jsTruthy, hne]

def c10CmdMsg : WsMessage :=
  { action := some ("ping"), type := some ("capture") }

/-- Witness for the amended C10: a concrete message holding both a ping
action and a legacy capture type is answered by the command-form pong,
however the type field is rewritten. -/
theorem action_dispatch_decides_witness :
    handleMessage c10Deps c10CmdMsg = actionSwitch c10Deps ("ping") c10CmdMsg ∧
    handleMessage c10Deps { c10CmdMsg with type := some ("analyze") } =
      actionSwitch c10Deps ("ping") c10CmdMsg :=
  action_dispatch_decides c10Deps c10CmdMsg ("ping") (some ("analyze")) rfl (by decide)

end SeekClarity
